import Mathlib

/-
Verification of the orchestrator turn-processing pipeline of the tutoring
backend (backend/agents/orchestrator.py and the modules it uses).

The Python source is shallowly embedded: Pydantic models become structures,
Python dicts become association lists, in-place mutation becomes explicit
state passing, fallible calls return Except, and float arithmetic is carried
out exactly over the rationals.  External LLM calls are abstracted as oracle
values supplied through a TurnEnv record: each oracle is either the value the
call produced or the exception it raised.  datetime fields of the source are
elided (no claim concerns them).
-/

namespace Tutor

/-! ## Data model (backend/models/session.py, backend/models/study_plan.py,
backend/models/messages.py) -/

/-- Message from backend/models/messages.py (role is "student" or "teacher";
timestamp and message_id elided). -/
structure Message where
  role : String
  content : String
deriving Repr, DecidableEq

/-- Misconception record from backend/models/session.py (detected_at elided). -/
structure Misconception where
  concept : String
  description : String
  resolved : Bool := false
deriving Repr, DecidableEq

/-- Question record from backend/models/session.py. -/
structure Question where
  question_text : String
  expected_answer : String
  concept : String
  rubric : String := ""
  hints : List String := []
  hints_used : Nat := 0
deriving Repr, DecidableEq

/-- StudyPlanStep from backend/models/study_plan.py (the fields the
orchestrator reads). -/
structure StudyPlanStep where
  step_id : Nat
  type : String
  concept : String
  content_hint : Option String := none
deriving Repr, DecidableEq

/-- StudyPlan from backend/models/study_plan.py. -/
structure StudyPlan where
  steps : List StudyPlanStep
deriving Repr, DecidableEq

/-- StudyPlan.total_steps: `len(self.steps)`. -/
def StudyPlan.total_steps (p : StudyPlan) : Nat :=
  p.steps.length

/-- StudyPlan.get_step: linear search for the step with the given id. -/
def StudyPlan.get_step (p : StudyPlan) (step_id : Nat) : Option StudyPlanStep :=
  p.steps.find? (fun s => s.step_id == step_id)

/-- Topic from backend/models/study_plan.py (the fields the orchestrator
reads; guidelines elided apart from nothing claim-relevant). -/
structure Topic where
  topic_id : String
  topic_name : String
  subject : String
  study_plan : StudyPlan
deriving Repr, DecidableEq

/-- SessionSummary from backend/models/session.py. -/
structure SessionSummary where
  turn_timeline : List String := []
  concepts_taught : List String := []
  depth_reached : List (String × String) := []
  examples_used : List String := []
  analogies_used : List String := []
  student_responses_summary : List String := []
  progress_trend : String := "steady"
  stuck_points : List String := []
  what_helped : List String := []
  next_focus : Option String := none
deriving Repr, DecidableEq

/-- StudentContext from backend/models/messages.py. -/
structure StudentContext where
  grade : Nat := 5
  board : String := "CBSE"
  language_level : String := "simple"
  preferred_examples : List String := ["food", "sports", "games"]
deriving Repr, DecidableEq

/-- SessionState from backend/models/session.py.  Python dicts
(mastery_estimates) are modelled as insertion-ordered association lists;
created_at/updated_at are elided. -/
structure SessionState where
  session_id : String
  turn_count : Nat := 0
  topic : Option Topic := none
  current_step : Nat := 1
  concepts_covered : List String := []
  last_concept_taught : Option String := none
  last_question : Option Question := none
  awaiting_response : Bool := false
  mastery_estimates : List (String × ℚ) := []
  misconceptions : List Misconception := []
  weak_areas : List String := []
  student_context : StudentContext := {}
  pace_preference : String := "normal"
  off_topic_count : Nat := 0
  warning_count : Nat := 0
  safety_flags : List String := []
  session_summary : SessionSummary := {}
  conversation_history : List Message := []
deriving Repr, DecidableEq

/-- Lookup with default in an association list, as Python `dict.get(k, d)`. -/
def dictGetD (d : List (String × ℚ)) (k : String) (v₀ : ℚ) : ℚ :=
  match d.find? (fun p => p.1 == k) with
  | some p => p.2
  | none => v₀

/-- Assignment `d[k] = v` on an insertion-ordered association list: replace in
place when the key exists, append otherwise (Python dict semantics). -/
def dictInsert (d : List (String × ℚ)) (k : String) (v : ℚ) : List (String × ℚ) :=
  if d.any (fun p => p.1 == k) then
    d.map (fun p => if p.1 == k then (p.1, v) else p)
  else
    d ++ [(k, v)]

/-- SessionState.current_step_data: the study-plan step whose id equals the
1-indexed cursor, when a topic is bound. -/
def SessionState.current_step_data (s : SessionState) : Option StudyPlanStep :=
  match s.topic with
  | none => none
  | some t => t.study_plan.get_step s.current_step

/-- SessionState.add_message: append and keep only the last 10 entries. -/
def SessionState.add_message (s : SessionState) (m : Message) : SessionState :=
  let h := s.conversation_history ++ [m]
  let h := if h.length > 10 then h.drop (h.length - 10) else h
  { s with conversation_history := h }

/-- SessionState.update_mastery: store the score clamped to [0,1]. -/
def SessionState.update_mastery (s : SessionState) (concept : String) (score : ℚ) :
    SessionState :=
  { s with mastery_estimates := dictInsert s.mastery_estimates concept (max 0 (min 1 score)) }

/-- SessionState.add_misconception: append an unresolved record and add the
concept to weak areas when absent. -/
def SessionState.add_misconception (s : SessionState) (concept : String) (description : String) :
    SessionState :=
  let s := { s with misconceptions := s.misconceptions ++ [⟨concept, description, false⟩] }
  if s.weak_areas.contains concept then s
  else { s with weak_areas := s.weak_areas ++ [concept] }

/-- SessionState.advance_step: increment the 1-indexed cursor only when a topic
is bound and the cursor is strictly below the number of steps; the Bool mirrors
the Python return value (True when advanced). -/
def SessionState.advance_step (s : SessionState) : SessionState × Bool :=
  match s.topic with
  | none => (s, false)
  | some t =>
      if s.current_step < t.study_plan.total_steps then
        ({ s with current_step := s.current_step + 1 }, true)
      else
        (s, false)

/-- SessionState.set_question: install the question and raise the
awaiting-response flag. -/
def SessionState.set_question (s : SessionState) (q : Question) : SessionState :=
  { s with last_question := some q, awaiting_response := true }

/-- SessionState.clear_question: the source resets only the awaiting-response
flag; the stored last_question is left in place. -/
def SessionState.clear_question (s : SessionState) : SessionState :=
  { s with awaiting_response := false }

/-- SessionState.increment_turn. -/
def SessionState.increment_turn (s : SessionState) : SessionState :=
  { s with turn_count := s.turn_count + 1 }

/-! ## Mastery arithmetic (backend/utils/state_utils.py) -/

/-- update_mastery_estimate from backend/utils/state_utils.py, with exact
rational arithmetic in place of Python floats.  The learning_rate argument
keeps its source default 0.2 at every call site of the orchestrator. -/
def updateMasteryEstimate (current : ℚ) (is_correct : Bool) (confidence : ℚ)
    (learning_rate : ℚ := (2 : ℚ) / 10) : ℚ :=
  let effective_rate := learning_rate * confidence
  let delta := if is_correct then (1 - current) * effective_rate
               else -current * effective_rate * (1 / 2)
  max 0 (min 1 (current + delta))

/-- Formula of spec section 8, written exactly as the spec states it (used to
compare against the source function): if correct `m + (1-m)*r*conf`, else
`m - m*r*conf*0.5`, with `r = 0.2`, clamped to [0,1]. -/
def specMasteryFormula (m : ℚ) (is_correct : Bool) (conf : ℚ) : ℚ :=
  let r : ℚ := (2 : ℚ) / 10
  let raw := if is_correct then m + (1 - m) * r * conf else m - m * r * conf * (1 / 2)
  max 0 (min 1 raw)

/-- Claim C1: the mastery update returns exactly `m + (1-m)*0.2*conf` when
correct and `m - m*0.2*conf*0.5` when incorrect, clamped to [0,1]; in
particular (0.5, correct, 0.9) gives 0.59 and (0.5, incorrect, 0.9) gives
0.455.  Stated for all rational m and conf, which covers the claim's
quantification over [0,1]. -/
theorem updateMasteryEstimate_matches_spec_formula :
    (∀ (m conf : ℚ) (b : Bool), updateMasteryEstimate m b conf = specMasteryFormula m b conf)
    ∧ updateMasteryEstimate (1/2) true (9/10) = 59/100
    ∧ updateMasteryEstimate (1/2) false (9/10) = 455/1000 := by
  refine ⟨fun m conf b => ?_, by norm_num [updateMasteryEstimate], by norm_num [updateMasteryEstimate]⟩
  cases b <;> simp [updateMasteryEstimate, specMasteryFormula] <;> ring_nf

/-! ## Specialist output models (backend/agents/safety.py, evaluator.py,
assessor.py, explainer.py, topic_steering.py, plan_adapter.py) -/

/-- SafetyOutput from backend/agents/safety.py. -/
structure SafetyOutput where
  is_safe : Bool
  violation_type : Option String := none
  guidance : Option String := none
  should_warn : Bool := false
  reasoning : String := ""
deriving Repr, DecidableEq

/-- EvaluatorOutput from backend/agents/evaluator.py (score ∈ [0,1] enforced
by the schema; carried here as a rational). -/
structure EvaluatorOutput where
  is_correct : Bool
  score : ℚ
  feedback : String
  misconceptions : List String := []
  mastery_signal : String
  explanation_needed : Bool := false
  reasoning : String := ""
deriving Repr, DecidableEq

/-- AssessorOutput from backend/agents/assessor.py. -/
structure AssessorOutput where
  question : String
  expected_answer : String
  rubric : String
  hints : List String := []
  reasoning : String := ""
deriving Repr, DecidableEq

/-- ExplainerOutput from backend/agents/explainer.py. -/
structure ExplainerOutput where
  explanation : String
  examples : List String := []
  analogies : List String := []
  key_points : List String := []
  reasoning : String := ""
deriving Repr, DecidableEq

/-- TopicSteeringOutput from backend/agents/topic_steering.py. -/
structure TopicSteeringOutput where
  brief_response : Option String := none
  redirect_message : String
  severity : String
  reasoning : String := ""
deriving Repr, DecidableEq

/-- PlanAdapterOutput stands in for backend/agents/plan_adapter.py; the
orchestrator never reads its fields, so only its identity matters here. -/
structure PlanAdapterOutput where
  reasoning : String := ""
deriving Repr, DecidableEq

/-- Runtime class of a specialist result, as dispatched on by isinstance
checks in the orchestrator. -/
inductive SpecialistOutput where
  | evaluator (o : EvaluatorOutput)
  | assessor (o : AssessorOutput)
  | explainer (o : ExplainerOutput)
  | topicSteering (o : TopicSteeringOutput)
  | planAdapter (o : PlanAdapterOutput)
deriving Repr, DecidableEq

/-- Specialist-outputs map of the orchestrator: a Python dict from agent name
to a result that is None when the specialist failed. -/
abbrev SpecialistOutputs := List (String × Option SpecialistOutput)

/-- The pattern `if "evaluator" in outputs: ... if isinstance(r, EvaluatorOutput)`:
yields the evaluator output only when the key is present with a non-None value
of the right class. -/
def getEvaluatorOutput (outputs : SpecialistOutputs) : Option EvaluatorOutput :=
  match outputs.lookup "evaluator" with
  | some (some (.evaluator o)) => some o
  | _ => none

/-- Same pattern for the assessor. -/
def getAssessorOutput (outputs : SpecialistOutputs) : Option AssessorOutput :=
  match outputs.lookup "assessor" with
  | some (some (.assessor o)) => some o
  | _ => none

/-- Same pattern for the explainer. -/
def getExplainerOutput (outputs : SpecialistOutputs) : Option ExplainerOutput :=
  match outputs.lookup "explainer" with
  | some (some (.explainer o)) => some o
  | _ => none

/-! ## State Updater (TeacherOrchestrator._update_state) -/

/-- Evaluator block of _update_state: update mastery for the current concept
(confidence taken from the evaluator score), append misconceptions, clear the
question, and advance the step only on a correct answer. -/
def applyEvaluatorUpdate (s : SessionState) (ev : EvaluatorOutput) : SessionState :=
  let concept := match s.current_step_data with
    | some step => step.concept
    | none => "unknown"
  let current_mastery := dictGetD s.mastery_estimates concept (1 / 2)
  let new_mastery := updateMasteryEstimate current_mastery ev.is_correct ev.score
  let s := s.update_mastery concept new_mastery
  let s := ev.misconceptions.foldl (fun acc m => acc.add_misconception concept m) s
  let s := s.clear_question
  if ev.is_correct then (s.advance_step).1 else s

/-- Assessor block of _update_state: install the generated question. -/
def applyAssessorUpdate (s : SessionState) (a : AssessorOutput) : SessionState :=
  let concept := match s.current_step_data with
    | some step => step.concept
    | none => "unknown"
  s.set_question ⟨a.question, a.expected_answer, concept, a.rubric, a.hints, 0⟩

/-- TeacherOrchestrator._update_state: returns the mutated session and the
state_changed flag.  The intent argument is unused by the source body but kept
for signature fidelity.  Note that the topic_steering block tests only key
presence, not the value. -/
def updateState (s : SessionState) (intent : String) (outputs : SpecialistOutputs) :
    SessionState × Bool :=
  let _ := intent
  let changed := false
  let (s, changed) := match getEvaluatorOutput outputs with
    | some ev => (applyEvaluatorUpdate s ev, true)
    | none => (s, changed)
  let (s, changed) := match getAssessorOutput outputs with
    | some a => (applyAssessorUpdate s a, true)
    | none => (s, changed)
  let (s, changed) := if (outputs.lookup "topic_steering").isSome then
      ({ s with off_topic_count := s.off_topic_count + 1 }, true)
    else (s, changed)
  (s, changed)

/-! ## Decision model (backend/models/orchestrator_models.py) -/

/-- Intent literal enum of OrchestratorDecision.intent. -/
inductive Intent where
  | answer | question | confusion | off_topic | unsafe_intent | continuation
deriving Repr, DecidableEq

/-- Specialist-name literal enum of OrchestratorDecision.specialists_to_call. -/
inductive Specialist where
  | explainer | evaluator | assessor | topic_steering | plan_adapter
deriving Repr, DecidableEq

/-- Execution-strategy literal enum of OrchestratorDecision.execution_strategy. -/
inductive ExecutionStrategy where
  | sequential | parallel | conditional
deriving Repr, DecidableEq

/-- Pydantic validation of the intent Literal. -/
def parseIntent (s : String) : Option Intent :=
  if s == "answer" then some .answer
  else if s == "question" then some .question
  else if s == "confusion" then some .confusion
  else if s == "off_topic" then some .off_topic
  else if s == "unsafe" then some .unsafe_intent
  else if s == "continuation" then some .continuation
  else none

/-- String the intent renders back to. -/
def Intent.toStr : Intent → String
  | .answer => "answer"
  | .question => "question"
  | .confusion => "confusion"
  | .off_topic => "off_topic"
  | .unsafe_intent => "unsafe"
  | .continuation => "continuation"

/-- Pydantic validation of the specialist-name Literal. -/
def parseSpecialist (s : String) : Option Specialist :=
  if s == "explainer" then some .explainer
  else if s == "evaluator" then some .evaluator
  else if s == "assessor" then some .assessor
  else if s == "topic_steering" then some .topic_steering
  else if s == "plan_adapter" then some .plan_adapter
  else none

/-- String the specialist name renders back to. -/
def Specialist.toStr : Specialist → String
  | .explainer => "explainer"
  | .evaluator => "evaluator"
  | .assessor => "assessor"
  | .topic_steering => "topic_steering"
  | .plan_adapter => "plan_adapter"

/-- Pydantic validation of the execution-strategy Literal. -/
def parseStrategy (s : String) : Option ExecutionStrategy :=
  if s == "sequential" then some .sequential
  else if s == "parallel" then some .parallel
  else if s == "conditional" then some .conditional
  else none

/-- ExplainerRequirements (Literal fields carried as strings; their
enum validation is not claim-relevant). -/
structure ExplainerRequirements where
  trigger_reason : String
  trigger_details : String
  focus_area : String
  student_confusion_point : Option String := none
  recommended_approach : String
  avoid_approaches : List String := []
  length_guidance : String := "moderate"
  include_check_question : Bool := true
  tone_guidance : String := "encouraging"
  session_narrative : String := ""
  recent_student_responses : List String := []
  failed_explanations : List String := []
deriving Repr, DecidableEq

/-- EvaluatorRequirements. -/
structure EvaluatorRequirements where
  evaluation_focus : String := "correctness_only"
  concepts_just_taught : List String := []
  expected_mastery_level : String := "basic_application"
  be_lenient : Bool := false
  look_for_specific_misconception : Option String := none
deriving Repr, DecidableEq

/-- AssessorRequirements. -/
structure AssessorRequirements where
  question_purpose : String := "quick_check"
  difficulty_level : String := "medium"
  concepts_to_test : List String := []
  avoid_question_types : List String := []
  expected_time_to_answer : String := "moderate"
deriving Repr, DecidableEq

/-- TopicSteeringRequirements. -/
structure TopicSteeringRequirements where
  off_topic_severity : String := "mild"
  acknowledge_message : Bool := true
  firmness_level : String := "gentle"
deriving Repr, DecidableEq

/-- PlanAdapterRequirements. -/
structure PlanAdapterRequirements where
  adaptation_trigger : String
  urgency : String := "medium"
  consider_skipping : Bool := false
  consider_remediation : Bool := false
deriving Repr, DecidableEq

/-- Validated OrchestratorDecision.  Enum-typed fields witness that pydantic
Literal validation succeeded; note specialists_to_call carries no
non-emptiness constraint, exactly as in the source model. -/
structure OrchestratorDecision where
  intent : Intent
  intent_confidence : ℚ
  intent_reasoning : String
  specialists_to_call : List Specialist
  execution_strategy : ExecutionStrategy := .parallel
  mini_plan_reasoning : String
  explainer_requirements : Option ExplainerRequirements := none
  evaluator_requirements : Option EvaluatorRequirements := none
  assessor_requirements : Option AssessorRequirements := none
  topic_steering_requirements : Option TopicSteeringRequirements := none
  plan_adapter_requirements : Option PlanAdapterRequirements := none
  overall_strategy : String
  expected_outcome : String
deriving Repr, DecidableEq

/-- Raw parsed payload handed to OrchestratorDecision.model_validate: string
fields are still unvalidated. -/
structure DecisionPayload where
  intent : String
  intent_confidence : ℚ
  intent_reasoning : String
  specialists_to_call : List String
  execution_strategy : String := "parallel"
  mini_plan_reasoning : String
  explainer_requirements : Option ExplainerRequirements := none
  evaluator_requirements : Option EvaluatorRequirements := none
  assessor_requirements : Option AssessorRequirements := none
  topic_steering_requirements : Option TopicSteeringRequirements := none
  plan_adapter_requirements : Option PlanAdapterRequirements := none
  overall_strategy : String
  expected_outcome : String
deriving Repr, DecidableEq

/-- Expected-outcome Literal check. -/
def validOutcome (s : String) : Bool :=
  s == "understanding_gained" || s == "practice_opportunity" ||
  s == "misconception_corrected" || s == "engagement_restored" ||
  s == "progress_to_next_step"

/-- Pydantic validation of each element of specialists_to_call. -/
def parseSpecialists : List String → Option (List Specialist)
  | [] => some []
  | s :: rest =>
      match parseSpecialist s, parseSpecialists rest with
      | some sp, some sps => some (sp :: sps)
      | _, _ => none

/-- OrchestratorDecision.model_validate: every Literal and range constraint of
the source model, and nothing more — in particular no minimum length on
specialists_to_call. -/
def validateOrchestratorDecision (p : DecisionPayload) : Except String OrchestratorDecision :=
  match parseIntent p.intent with
  | none => .error "invalid intent"
  | some intent =>
    if p.intent_confidence < 0 ∨ 1 < p.intent_confidence then .error "confidence out of range"
    else match parseSpecialists p.specialists_to_call with
      | none => .error "invalid specialist name"
      | some specialists =>
        match parseStrategy p.execution_strategy with
        | none => .error "invalid execution strategy"
        | some strategy =>
          if validOutcome p.expected_outcome then
            .ok { intent := intent
                  intent_confidence := p.intent_confidence
                  intent_reasoning := p.intent_reasoning
                  specialists_to_call := specialists
                  execution_strategy := strategy
                  mini_plan_reasoning := p.mini_plan_reasoning
                  explainer_requirements := p.explainer_requirements
                  evaluator_requirements := p.evaluator_requirements
                  assessor_requirements := p.assessor_requirements
                  topic_steering_requirements := p.topic_steering_requirements
                  plan_adapter_requirements := p.plan_adapter_requirements
                  overall_strategy := p.overall_strategy
                  expected_outcome := p.expected_outcome }
          else .error "invalid expected outcome"

/-- create_simple_decision from backend/models/orchestrator_models.py.
Constructing the pydantic model validates the intent Literal, so an intent
outside the enum raises; all requirements keep their None defaults and the
strategy is fixed to sequential. -/
def createSimpleDecision (intent : String) (specialists : List String)
    (reasoning : String := "Simple routing decision") : Except String OrchestratorDecision :=
  match parseIntent intent with
  | none => .error "invalid intent"
  | some i =>
    match parseSpecialists specialists with
    | none => .error "invalid specialist name"
    | some sps =>
        .ok { intent := i
              intent_confidence := (8 : ℚ) / 10
              intent_reasoning := reasoning
              specialists_to_call := sps
              execution_strategy := .sequential
              mini_plan_reasoning := reasoning
              overall_strategy := "Respond to " ++ intent ++ " with " ++ String.intercalate ", " specialists
              expected_outcome := "understanding_gained" }

/-- TeacherOrchestrator._create_fallback_decision: the fixed rule table plus
create_simple_decision. -/
def createFallbackDecision (intent : String) : Except String OrchestratorDecision :=
  let specialists :=
    if intent == "answer" then ["evaluator"]
    else if intent == "question" then ["explainer"]
    else if intent == "confusion" then ["explainer"]
    else if intent == "off_topic" then ["topic_steering"]
    else if intent == "continuation" then ["assessor"]
    else ["explainer"]
  createSimpleDecision intent specialists "Fallback routing due to decision generation failure"

/-! ## Specialist Dispatcher (TeacherOrchestrator._execute_parallel,
_execute_sequential).  A specialist invocation is abstracted as an Except
value: `.ok o` when agent.execute returned o, `.error e` when it raised. -/

/-- _execute_parallel: asyncio.gather with return_exceptions=True produces one
result-or-exception per task; each exception is mapped to None. -/
def executeParallel (names : List String) (call : String → Except String SpecialistOutput) :
    SpecialistOutputs :=
  let results := names.map call
  (names.zip results).map (fun nr => (nr.1, nr.2.toOption))

/-- _execute_sequential: one try/except per specialist, a failure stores None
and the loop continues. -/
def executeSequential (names : List String) (call : String → Except String SpecialistOutput) :
    SpecialistOutputs :=
  names.foldl (fun outputs n =>
    match call n with
    | .ok r => outputs ++ [(n, some r)]
    | .error _ => outputs ++ [(n, none)]) []

/-! ## Response Composer (TeacherOrchestrator._compose_response,
_format_specialist_outputs, _generate_fallback_response) -/

/-- Python str.strip family: drop characters satisfying p from both ends. -/
def pyStripP (p : Char → Bool) (s : String) : String :=
  ⟨((s.data.dropWhile p).reverse.dropWhile p).reverse⟩

/-- Python str.strip(): strip whitespace from both ends. -/
def pyStrip (s : String) : String :=
  pyStripP Char.isWhitespace s

/-- Python truthiness of an Optional[str]: false for None and for "". -/
def pyTruthy : Option String → Bool
  | none => false
  | some s => s != ""

/-- Rendering of a Python bool in an f-string. -/
def pyBool (b : Bool) : String :=
  if b then "True" else "False"

/-- Python str.upper() for the ASCII agent names it is applied to. -/
def pyUpper (s : String) : String :=
  ⟨s.data.map Char.toUpper⟩

/-- Lines contributed by one specialist entry of _format_specialist_outputs
(None entries are skipped by the caller). -/
def formatOneOutput (name : String) (o : SpecialistOutput) : List String :=
  let header := ["--- " ++ pyUpper name ++ " ---"]
  let body := match o with
    | .evaluator ev =>
        ["Is Correct: " ++ pyBool ev.is_correct, "Feedback: " ++ ev.feedback] ++
        (if ev.misconceptions.isEmpty then []
         else ["Misconceptions: " ++ String.intercalate ", " ev.misconceptions])
    | .explainer ex =>
        ["Explanation: " ++ ex.explanation] ++
        (if ex.examples.isEmpty then []
         else ["Examples: " ++ String.intercalate "; " ex.examples])
    | .assessor a => ["Question: " ++ a.question]
    | .topicSteering t =>
        (if pyTruthy t.brief_response then ["Acknowledgment: " ++ t.brief_response.getD ""]
         else []) ++
        ["Redirect: " ++ t.redirect_message]
    | .planAdapter _ => []
  header ++ body ++ [""]

/-- _format_specialist_outputs: skip None results, emit a block per present
output, join with newlines. -/
def formatSpecialistOutputs (outputs : SpecialistOutputs) : String :=
  let lines := outputs.foldl (fun acc no =>
    match no.2 with
    | none => acc
    | some o => acc ++ formatOneOutput no.1 o) []
  String.intercalate "\n" lines

/-- _generate_fallback_response: the deterministic reply keyed on intent and
the current step type/concept. -/
def generateFallbackResponse (session : SessionState) (intent : String) : String :=
  let current_step := session.current_step_data
  let concept := match current_step with
    | some step => step.concept
    | none => "the topic"
  if intent == "continuation" then
    match current_step with
    | some step =>
        if step.type == "explain" then
          "Great! Let's continue learning about " ++ concept ++ "."
        else if step.type == "check" || step.type == "practice" then
          "Let me ask you a question about " ++ concept ++ " to check your understanding."
        else "Let's continue with our lesson!"
    | none => "Let's continue with our lesson!"
  else if intent == "confusion" then
    "I understand this can be tricky. Let me explain " ++ concept ++ " in a different way."
  else if intent == "question" then
    "That's a great question! Let me help clarify."
  else
    "Let's keep going with our lesson. What would you like to learn about next?"

/-- _compose_response: with no usable specialist output return the
deterministic fallback; otherwise issue the composition completion (which may
raise) and return its output text stripped of surrounding whitespace.
composerText is the completion oracle for result.get("output_text", ""). -/
def composeResponse (composerText : Except String String) (session : SessionState)
    (intent : String) (outputs : SpecialistOutputs) : Except String String :=
  let outputs_text := formatSpecialistOutputs outputs
  if pyStrip outputs_text == "" then
    .ok (generateFallbackResponse session intent)
  else
    match composerText with
    | .error e => .error e
    | .ok t => .ok (pyStrip t)

/-! ## Safety Gate (TeacherOrchestrator._handle_unsafe_message) -/

/-- Generic redirect used when the safety output carries no guidance. -/
def genericRedirect : String :=
  "Let's keep our conversation focused on learning. How can I help you with the lesson?"

/-- _handle_unsafe_message: append the violation flag (`violation_type or
"unknown"`, Python truthiness), bump the warning count when should_warn, and
return the guidance text (`if safety.guidance:`, Python truthiness) or the
generic redirect.  The caller saves the session right after. -/
def handleUnsafeMessage (session : SessionState) (safety : SafetyOutput) :
    SessionState × String :=
  let flag := match safety.violation_type with
    | some v => if v == "" then "unknown" else v
    | none => "unknown"
  let session := { session with safety_flags := session.safety_flags ++ [flag] }
  let session := if safety.should_warn then
      { session with warning_count := session.warning_count + 1 }
    else session
  let response := match safety.guidance with
    | some g => if g == "" then genericRedirect else g
    | none => genericRedirect
  (session, response)

/-! ## Turn Summarizer (TeacherOrchestrator._generate_turn_summary,
_generate_fallback_summary, _update_session_summary, _update_progress_trend) -/

/-- Python `concept.replace("_", " ")`: with a single-character pattern this
is a per-character substitution. -/
def pyReplaceUnderscores (s : String) : String :=
  ⟨s.data.map (fun c => if c == Char.ofNat 95 then Char.ofNat 32 else c)⟩

/-- Prefix test on character lists. -/
def charsPrefix : List Char → List Char → Bool
  | [], _ => true
  | _ :: _, [] => false
  | n :: ns, h :: hs => n == h && charsPrefix ns hs

/-- Substring occurrence test on character lists. -/
def charsContains : List Char → List Char → Bool
  | [], needle => charsPrefix needle []
  | c :: t, needle => charsPrefix needle (c :: t) || charsContains t needle

/-- Substring test, as the Python `in` operator on strings. -/
def strContainsSub (hay needle : String) : Bool :=
  charsContains hay.data needle.data

/-- Python f-string "{q:.0%}" (the tie-breaking of Python float formatting at
exact half-percent values is not claim-relevant). -/
def formatPercent (q : ℚ) : String :=
  toString (round (q * 100) : ℤ) ++ "%"

/-- Agent-summary fragments built at the start of _generate_turn_summary. -/
def buildAgentSummaryParts (outputs : SpecialistOutputs) : List String :=
  let parts := match getEvaluatorOutput outputs with
    | some ev =>
        if ev.is_correct then ["correct answer (score: " ++ formatPercent ev.score ++ ")"]
        else ["incorrect answer, misconception: " ++ (ev.misconceptions.headD "error")]
    | none => []
  let parts := parts ++ (match getExplainerOutput outputs with
    | some ex =>
        if ex.examples.isEmpty then []
        else ["explained with examples: " ++ ex.examples.headD ""]
    | none => [])
  let parts := parts ++ (match getAssessorOutput outputs with
    | some _ => ["asked a check question"]
    | none => [])
  if (outputs.lookup "topic_steering").isSome then
    parts ++ ["redirected off-topic message"]
  else parts

/-- _generate_fallback_summary: rule-based summary when the summary completion
raised. -/
def generateFallbackSummary (intent : String) (concept : Option String)
    (agent_parts : List String) : String :=
  let concept_str := match concept with
    | some c => if c == "" then "the topic" else pyReplaceUnderscores c
    | none => "the topic"
  if intent == "answer" then
    if agent_parts.any (fun p => strContainsSub p "correct") then
      "Student answered correctly about " ++ concept_str
    else
      "Student struggled with " ++ concept_str ++ ", needed clarification"
  else if intent == "question" then
    "Student asked question about " ++ concept_str ++ ", tutor explained"
  else if intent == "confusion" then
    "Student confused about " ++ concept_str ++ ", tutor clarified"
  else if intent == "off_topic" then
    "Student went off-topic, redirected to lesson"
  else if intent == "continuation" then
    "Continued lesson on " ++ concept_str
  else
    "Discussed " ++ concept_str

/-- _generate_turn_summary: on completion success strip whitespace, strip
surrounding quote characters, truncate past 100 characters; on completion
failure fall back to the rule-based summary. -/
def generateTurnSummary (summaryText : Except String String) (intent : String)
    (contextConcept : Option String) (outputs : SpecialistOutputs) : String :=
  let agent_parts := buildAgentSummaryParts outputs
  match summaryText with
  | .ok t =>
      let summary := pyStrip t
      let summary := pyStripP (fun c => c == Char.ofNat 34) summary
      let summary := pyStripP (fun c => c == Char.ofNat 39) summary
      if summary.length > 100 then summary.take 97 ++ "..." else summary
  | .error _ => generateFallbackSummary intent contextConcept agent_parts

/-- _update_progress_trend: adjust the trend from the evaluator verdict and
the average stored mastery. -/
def updateProgressTrend (session : SessionState) (outputs : SpecialistOutputs) :
    SessionState :=
  match getEvaluatorOutput outputs with
  | none => session
  | some ev =>
      let mastery_values := session.mastery_estimates.map Prod.snd
      if mastery_values.isEmpty then session
      else
        let avg_mastery := mastery_values.foldl (· + ·) 0 / (mastery_values.length : ℚ)
        let summ := session.session_summary
        if ev.is_correct ∧ ev.score ≥ (8 : ℚ) / 10 then
          if avg_mastery ≥ (6 : ℚ) / 10 then
            { session with session_summary := { summ with progress_trend := "improving" } }
          else
            { session with session_summary := { summ with progress_trend := "steady" } }
        else if ¬ ev.is_correct then
          if avg_mastery < (4 : ℚ) / 10 then
            { session with session_summary := { summ with progress_trend := "struggling" } }
          else
            { session with session_summary := { summ with progress_trend := "steady" } }
        else session

/-- Append to a list only the elements not already present (the dedup loops of
_update_session_summary). -/
def appendNew (base : List String) (xs : List String) : List String :=
  xs.foldl (fun acc x => if acc.contains x then acc else acc ++ [x]) base

/-- _update_session_summary: timeline append with FIFO trim at 30 entries,
example/analogy dedup merge, stuck-point recording, concepts-taught update,
then the progress-trend heuristic. -/
def updateSessionSummary (session : SessionState) (turn_summary : String)
    (outputs : SpecialistOutputs) : SessionState :=
  let turn_entry := "Turn " ++ toString session.turn_count ++ ": " ++ turn_summary
  let timeline := session.session_summary.turn_timeline ++ [turn_entry]
  let timeline := if timeline.length > 30 then timeline.drop (timeline.length - 30) else timeline
  let summ := { session.session_summary with turn_timeline := timeline }
  let summ := match getExplainerOutput outputs with
    | some ex =>
        { summ with examples_used := appendNew summ.examples_used ex.examples,
                    analogies_used := appendNew summ.analogies_used ex.analogies }
    | none => summ
  let summ := match getEvaluatorOutput outputs with
    | some ev =>
        if ¬ ev.is_correct ∧ ev.feedback != "" then
          let concept := match session.current_step_data with
            | some step => step.concept
            | none => "unknown"
          let stuck_point := concept ++ ": " ++ (ev.misconceptions.headD "difficulty")
          if summ.stuck_points.contains stuck_point then summ
          else { summ with stuck_points := summ.stuck_points ++ [stuck_point] }
        else summ
    | none => summ
  let summ :=
    if (outputs.lookup "explainer").isSome then
      match session.current_step_data with
      | some step =>
          if step.concept != "" ∧ ¬ summ.concepts_taught.contains step.concept then
            { summ with concepts_taught := summ.concepts_taught ++ [step.concept] }
          else summ
      | none => summ
    else summ
  let session := { session with session_summary := summ }
  updateProgressTrend session outputs

/-! ## Turn pipeline (TeacherOrchestrator.process_turn) -/

/-- IntentClassification from the fallback classifier (already validated:
the intent field of the source model is an unconstrained str). -/
structure IntentClassification where
  intent : String
  confidence : ℚ
  reasoning : String
deriving Repr, DecidableEq

/-- TurnResult from backend/agents/orchestrator.py. -/
structure TurnResult where
  response : String
  intent : String
  specialists_called : List String := []
  state_changed : Bool := false
deriving Repr, DecidableEq

/-- Oracles for the external completion calls of one turn.  Each field is the
value the call produced, or `.error` when the call (or its output validation)
raised. -/
structure TurnEnv where
  safetyResult : Except String SafetyOutput
  decisionPayload : Except String DecisionPayload
  intentClassifier : Except String IntentClassification
  specialistCall : String → Except String SpecialistOutput
  composerText : Except String String
  summaryText : Except String String

/-- Pipeline stages that can execute during one turn (for stating which
components ran). -/
inductive Stage where
  | safety | decision | dispatch | stateUpdate | compose | summarize | persist
deriving Repr, DecidableEq

/-- Result of one process_turn call: the returned TurnResult, the session
object as mutated in place, whether sessions.save was called, and the stages
that executed. -/
structure TurnOutcome where
  result : TurnResult
  finalSession : SessionState
  saved : Bool
  stages : List Stage
deriving Repr

/-- Fixed generic apology of the top-level exception handler. -/
def errorTurnResult : TurnResult :=
  { response := "I apologize, but I had a moment of confusion. Could you please repeat that?",
    intent := "error", specialists_called := [], state_changed := false }

/-- TeacherOrchestrator.process_turn.  In-place mutation of the session is
explicit state passing; an `.error` oracle models the corresponding call
raising, and where the source lets the exception propagate it reaches the
top-level handler, which returns the generic apology with the session left as
already mutated and without saving. -/
def processTurn (env : TurnEnv) (session : SessionState) (student_message : String) :
    TurnOutcome :=
  let session := session.increment_turn
  let session := session.add_message ⟨"student", student_message⟩
  let contextConcept := (session.current_step_data).map (fun step => step.concept)
  match env.safetyResult with
  | .error _ =>
      { result := errorTurnResult, finalSession := session, saved := false,
        stages := [.safety] }
  | .ok safety =>
    if safety.is_safe then
      let primary : Except String OrchestratorDecision :=
        match env.decisionPayload with
        | .error e => .error e
        | .ok p => validateOrchestratorDecision p
      let decisionE : Except String OrchestratorDecision :=
        match primary with
        | .ok d => .ok d
        | .error _ =>
            match env.intentClassifier with
            | .error e => .error e
            | .ok ic => createFallbackDecision ic.intent
      match decisionE with
      | .error _ =>
          { result := errorTurnResult, finalSession := session, saved := false,
            stages := [.safety, .decision] }
      | .ok decision =>
          let names := (decision.specialists_to_call.map Specialist.toStr).eraseDups
          let outputs :=
            if decision.execution_strategy == .parallel then
              executeParallel names env.specialistCall
            else
              executeSequential names env.specialistCall
          let su := updateState session decision.intent.toStr outputs
          let session := su.1
          let state_changed := su.2
          match composeResponse env.composerText session decision.intent.toStr outputs with
          | .error _ =>
              { result := errorTurnResult, finalSession := session, saved := false,
                stages := [.safety, .decision, .dispatch, .stateUpdate, .compose] }
          | .ok response =>
              let session := session.add_message ⟨"teacher", response⟩
              let turn_summary :=
                generateTurnSummary env.summaryText decision.intent.toStr contextConcept outputs
              let session := updateSessionSummary session turn_summary outputs
              { result := { response := response, intent := decision.intent.toStr,
                            specialists_called := outputs.map Prod.fst,
                            state_changed := state_changed },
                finalSession := session, saved := true,
                stages := [.safety, .decision, .dispatch, .stateUpdate, .compose,
                           .summarize, .persist] }
    else
      let sr := handleUnsafeMessage session safety
      { result := { response := sr.2, intent := "unsafe",
                    specialists_called := ["safety"], state_changed := true },
        finalSession := sr.1, saved := true, stages := [.safety, .persist] }

/-! ## In-memory session store with Python reference semantics
(backend/services/session_manager.py, call sites in backend/main.py).

InMemorySessionManager stores the SessionState object itself
(`_sessions[id] = session`) and `get` hands that same object back; the
transport layer passes the object obtained from `get_or_raise` straight into
process_turn (main.py), whose in-place mutations therefore change what the
store holds whether or not `save` is called.  The heap is made explicit:
store entries map a session id to a heap address, and every in-place mutation
rewrites the addressed cell. -/

/-- Store map plus heap of session objects. -/
structure SessionHeap where
  store : List (String × Nat)
  cells : List (Nat × SessionState)
deriving Repr

/-- What `manager.get(session_id)` observes (expiry elided: no time). -/
def SessionHeap.observe (h : SessionHeap) (session_id : String) : Option SessionState :=
  match h.store.lookup session_id with
  | none => none
  | some addr => h.cells.lookup addr

/-- Overwrite a heap cell (in-place mutation of the addressed object). -/
def SessionHeap.writeCell (h : SessionHeap) (addr : Nat) (s : SessionState) : SessionHeap :=
  { h with cells := h.cells.map (fun c => if c.1 == addr then (c.1, s) else c) }

/-- One chat turn as driven by main.py: fetch the stored session object, run
process_turn on it, with its in-place mutations landing in the object's heap
cell; `save` re-inserts the same object under the same id, leaving the store
map unchanged. -/
def runTurnThroughStore (env : TurnEnv) (h : SessionHeap) (session_id : String)
    (student_message : String) : SessionHeap × Option TurnOutcome :=
  match h.store.lookup session_id with
  | none => (h, none)
  | some addr =>
    match h.cells.lookup addr with
    | none => (h, none)
    | some session =>
        let outcome := processTurn env session student_message
        (h.writeCell addr outcome.finalSession, some outcome)

/-! ## Concrete fixtures (a small curriculum and session, as built by
create_session in backend/models/session.py) -/

/-- StudyPlan.get_concepts: first-occurrence list of step concepts. -/
def StudyPlan.get_concepts (p : StudyPlan) : List String :=
  p.steps.foldl (fun acc s => if acc.contains s.concept then acc else acc ++ [s.concept]) []

/-- create_session from backend/models/session.py: fresh state bound to a
topic, mastery initialised to 0.0 for every plan concept (the uuid-generated
session id is a parameter here). -/
def createSession (session_id : String) (topic : Topic) (student_context : StudentContext) :
    SessionState :=
  { session_id := session_id
    topic := some topic
    student_context := student_context
    mastery_estimates := (topic.study_plan.get_concepts).map (fun c => (c, (0 : ℚ))) }

/-- Three-step plan used by concrete checks. -/
def fractionsPlan : StudyPlan :=
  ⟨[⟨1, "explain", "fractions", none⟩, ⟨2, "check", "fractions", none⟩,
    ⟨3, "practice", "decimals", none⟩]⟩

/-- Topic fixture. -/
def fractionsTopic : Topic :=
  ⟨"math_fractions_grade5", "Fractions", "math", fractionsPlan⟩

/-- Freshly created session fixture. -/
def testSession : SessionState :=
  createSession "sess_1" fractionsTopic {}

/-- Assessor output fixture. -/
def testAssessorOutput : AssessorOutput :=
  { question := "What is 1/2 + 1/4?", expected_answer := "3/4", rubric := "exact match",
    hints := ["think in quarters"] }

/-- Incorrect-answer evaluator output fixture. -/
def evalIncorrect : EvaluatorOutput :=
  { is_correct := false, score := mkRat 9 10, feedback := "Not quite",
    misconceptions := ["adds denominators"], mastery_signal := "needs_remediation" }

/-- Correct-answer evaluator output fixture. -/
def evalCorrect : EvaluatorOutput :=
  { is_correct := true, score := mkRat 9 10, feedback := "Well done",
    mastery_signal := "strong" }

/-- Explainer output fixture. -/
def testExplainerOutput : ExplainerOutput :=
  { explanation := "A fraction is a part of a whole.", examples := ["pizza slices"] }

/-! ## Claim C5 — dispatcher failure isolation -/

/-- Helper for the sequential fold: accumulating from `acc` appends the
pointwise results. -/
theorem executeSequential_foldl (call : String → Except String SpecialistOutput) :
    ∀ (names : List String) (acc : SpecialistOutputs),
      names.foldl (fun outputs n =>
        match call n with
        | .ok r => outputs ++ [(n, some r)]
        | .error _ => outputs ++ [(n, none)]) acc
      = acc ++ names.map (fun n => (n, (call n).toOption)) := by
  intro names
  induction names with
  | nil => intro acc; simp
  | cons n rest ih =>
      intro acc
      simp only [List.foldl_cons, List.map_cons]
      cases h : call n <;> simp [ih, Except.toOption, h]

/-- Claim C5: for every specialist list and every assignment of per-specialist
results (some of which may be exceptions), both dispatchers return one entry
per dispatched specialist, in order, with a failing specialist mapped to an
absent result and a succeeding one to its output; being total functions into
plain result maps, no exception escapes, and one failure never affects the
other entries. -/
theorem dispatchers_isolate_failures
    (names : List String) (call : String → Except String SpecialistOutput) :
    executeParallel names call = names.map (fun n => (n, (call n).toOption))
    ∧ executeSequential names call = names.map (fun n => (n, (call n).toOption)) := by
  constructor
  · unfold executeParallel
    induction names with
    | nil => rfl
    | cons n rest ih => simpa using ih
  · unfold executeSequential
    simpa using executeSequential_foldl call names []

/-! ## Claim C6 — decision specialist-list guarantees -/

/-- The five specialist names of the enum. -/
def fiveSpecialistNames : List String :=
  ["explainer", "evaluator", "assessor", "topic_steering", "plan_adapter"]

/-- A string accepted by the specialist Literal is one of the five names. -/
theorem parseSpecialist_mem_five (s : String) (h : (parseSpecialist s).isSome) :
    s ∈ fiveSpecialistNames := by
  unfold parseSpecialist at h
  unfold fiveSpecialistNames
  split at h
  · simp_all
  · split at h
    · simp_all
    · split at h
      · simp_all
      · split at h
        · simp_all
        · split at h
          · simp_all
          · simp at h

/-- Element-wise success of parseSpecialists. -/
theorem parseSpecialists_mem {l : List String} {l' : List Specialist}
    (h : parseSpecialists l = some l') : ∀ s ∈ l, (parseSpecialist s).isSome := by
  induction l generalizing l' with
  | nil => simp
  | cons a rest ih =>
      intro s hs
      unfold parseSpecialists at h
      cases ha : parseSpecialist a with
      | none => rw [ha] at h; simp at h
      | some sp =>
          rw [ha] at h
          cases hr : parseSpecialists rest with
          | none => rw [hr] at h; simp at h
          | some sps =>
              rcases List.mem_cons.mp hs with rfl | hmem
              · simp [ha]
              · exact ih hr s hmem

/-- parseSpecialists preserves the list length. -/
theorem parseSpecialists_length {l : List String} {l' : List Specialist}
    (h : parseSpecialists l = some l') : l'.length = l.length := by
  induction l generalizing l' with
  | nil => unfold parseSpecialists at h; simp_all
  | cons a rest ih =>
      unfold parseSpecialists at h
      cases ha : parseSpecialist a with
      | none => rw [ha] at h; simp at h
      | some sp =>
          rw [ha] at h
          cases hr : parseSpecialists rest with
          | none => rw [hr] at h; simp at h
          | some sps =>
              rw [hr] at h
              cases h
              simpa using ih hr

/-- Successful validation parses the requested specialist names. -/
theorem validate_ok_parses_specialists {p : DecisionPayload} {d : OrchestratorDecision}
    (h : validateOrchestratorDecision p = .ok d) :
    parseSpecialists p.specialists_to_call = some d.specialists_to_call := by
  unfold validateOrchestratorDecision at h
  split at h
  · simp at h
  · split at h
    · simp at h
    · rename_i hsp
      split at h
      · simp at h
      · rename_i sps hsps
        split at h
        · simp at h
        · split at h
          · cases h
            exact hsps
          · simp at h

/-- Payload whose specialist list is empty but which otherwise satisfies
every constraint of the decision schema. -/
def emptySpecialistsPayload : DecisionPayload :=
  { intent := "question", intent_confidence := mkRat 9 10,
    intent_reasoning := "student asked for help",
    specialists_to_call := [], execution_strategy := "parallel",
    mini_plan_reasoning := "none needed",
    overall_strategy := "reply directly",
    expected_outcome := "understanding_gained" }

/-- Counterexample to claim C6 as stated: the primary schema-validated path
accepts a decision whose specialists_to_call is empty — the source model puts
no minimum length on the field — so the produced decision does not have at
least one element. -/
theorem empty_specialists_payload_validates :
    (validateOrchestratorDecision emptySpecialistsPayload).toOption.map
      (fun d => d.specialists_to_call) = some [] := by
  decide

/-- A decision built by create_simple_decision requests exactly the
specialists it was handed. -/
theorem createSimpleDecision_ok_length {intent reasoning : String} {sps : List String}
    {d : OrchestratorDecision} (h : createSimpleDecision intent sps reasoning = .ok d) :
    d.specialists_to_call.length = sps.length := by
  unfold createSimpleDecision at h
  split at h
  · simp at h
  · split at h
    · simp at h
    · rename_i l hl
      cases h
      simpa using parseSpecialists_length hl

/-- Claim C6 (amended): every specialist name a validated decision carries is
drawn from the fixed five-name enum, and the fallback path always produces a
non-empty specialist list; the primary schema-validated path, however, does
not guarantee non-emptiness. -/
theorem decision_specialists_enum_and_fallback_nonempty :
    (∀ (p : DecisionPayload) (d : OrchestratorDecision),
        validateOrchestratorDecision p = .ok d →
        ∀ sname ∈ p.specialists_to_call, sname ∈ fiveSpecialistNames)
    ∧ (∀ (intent : String) (d : OrchestratorDecision),
        createFallbackDecision intent = .ok d → d.specialists_to_call ≠ []) := by
  constructor
  · intro p d h sname hmem
    exact parseSpecialist_mem_five sname
      (parseSpecialists_mem (validate_ok_parses_specialists h) sname hmem)
  · intro intent d h
    simp only [createFallbackDecision] at h
    have hlen := createSimpleDecision_ok_length h
    have hone : (if intent == "answer" then ["evaluator"]
        else if intent == "question" then ["explainer"]
        else if intent == "confusion" then ["explainer"]
        else if intent == "off_topic" then ["topic_steering"]
        else if intent == "continuation" then ["assessor"]
        else ["explainer"]).length = 1 := by
      split_ifs <;> rfl
    intro hnil
    rw [hnil] at hlen
    rw [hone] at hlen
    simp at hlen

/-- Payload naming only the evaluator (otherwise as emptySpecialistsPayload). -/
def evaluatorOnlyPayload : DecisionPayload :=
  { intent := "question", intent_confidence := mkRat 9 10,
    intent_reasoning := "student asked for help",
    specialists_to_call := ["evaluator"], execution_strategy := "parallel",
    mini_plan_reasoning := "none needed",
    overall_strategy := "reply directly",
    expected_outcome := "understanding_gained" }

/-- Decision that validating evaluatorOnlyPayload produces. -/
def evaluatorOnlyDecision : OrchestratorDecision :=
  { intent := .question, intent_confidence := mkRat 9 10,
    intent_reasoning := "student asked for help",
    specialists_to_call := [.evaluator], execution_strategy := .parallel,
    mini_plan_reasoning := "none needed",
    overall_strategy := "reply directly",
    expected_outcome := "understanding_gained" }

/-- The toOption view determines the Except value on the ok side. -/
theorem except_toOption_some {ε α : Type} {e : Except ε α} {a : α}
    (h : e.toOption = some a) : e = .ok a := by
  cases e with
  | error _ => simp [Except.toOption] at h
  | ok v => simp [Except.toOption] at h; rw [h]

/-- Witness for the amended C6 theorem at concrete inputs: a validated payload
naming the evaluator, and the fallback decision for intent "answer". -/
theorem decision_specialists_enum_and_fallback_nonempty_witness :
    (validateOrchestratorDecision evaluatorOnlyPayload = .ok evaluatorOnlyDecision
      ∧ "evaluator" ∈ fiveSpecialistNames)
    ∧ ((createFallbackDecision "answer").toOption.map (fun d => d.specialists_to_call)
        = some [.evaluator]
      ∧ ∀ d, createFallbackDecision "answer" = .ok d → d.specialists_to_call ≠ []) := by
  have hv : validateOrchestratorDecision evaluatorOnlyPayload = .ok evaluatorOnlyDecision :=
    except_toOption_some (by decide)
  refine ⟨⟨hv, ?_⟩, ⟨by decide, ?_⟩⟩
  · exact decision_specialists_enum_and_fallback_nonempty.1
      evaluatorOnlyPayload evaluatorOnlyDecision hv "evaluator" (by simp [evaluatorOnlyPayload])
  · intro d hd
    exact decision_specialists_enum_and_fallback_nonempty.2 "answer" d hd

/-! ## Claim C7 — fallback decision rule table -/

/-- Observable view of a fallback decision: its specialist list, its execution
strategy, and whether all five requirements payloads are absent. -/
def fallbackView (intent : String) : Option (List Specialist × ExecutionStrategy × Bool) :=
  (createFallbackDecision intent).toOption.map (fun d =>
    (d.specialists_to_call, d.execution_strategy,
     d.explainer_requirements.isNone && d.evaluator_requirements.isNone &&
     d.assessor_requirements.isNone && d.topic_steering_requirements.isNone &&
     d.plan_adapter_requirements.isNone))

/-- Counterexample to claim C7 as stated: for an intent string outside the
six-value intent enum (the fallback classifier's intent field is an
unconstrained string) the rule table picks [explainer], but constructing the
pydantic decision then fails Literal validation, so no fallback decision is
produced at all — rather than one mapping the intent to [explainer]. -/
theorem fallback_decision_rejects_unknown_intent :
    (createFallbackDecision "greeting").toOption = none
    ∧ fallbackView "greeting" = none := by
  exact ⟨by decide, by decide⟩

/-- Claim C7 (amended): for every intent inside the six-value intent enum the
fallback decision follows the fixed rule table — answer→[evaluator],
question→[explainer], confusion→[explainer], off_topic→[topic_steering],
continuation→[assessor], and the remaining enum value (unsafe)→[explainer] —
with execution_strategy sequential and all five requirements payloads absent;
for any intent string outside the enum the construction fails pydantic
validation and no decision is produced. -/
theorem fallback_decision_rule_table :
    fallbackView "answer" = some ([.evaluator], .sequential, true)
    ∧ fallbackView "question" = some ([.explainer], .sequential, true)
    ∧ fallbackView "confusion" = some ([.explainer], .sequential, true)
    ∧ fallbackView "off_topic" = some ([.topic_steering], .sequential, true)
    ∧ fallbackView "continuation" = some ([.assessor], .sequential, true)
    ∧ fallbackView "unsafe" = some ([.explainer], .sequential, true)
    ∧ (∀ intent : String, parseIntent intent = none → fallbackView intent = none) := by
  refine ⟨by decide, by decide, by decide, by decide, by decide, by decide, ?_⟩
  intro intent h
  unfold fallbackView createFallbackDecision createSimpleDecision
  rw [h]
  simp [Except.toOption]

/-- Witness for the amended C7 theorem: the out-of-enum intent "greeting"
satisfies the last conjunct's hypothesis and yields no decision. -/
theorem fallback_decision_rule_table_witness :
    parseIntent "greeting" = none ∧ fallbackView "greeting" = none :=
  ⟨by decide, fallback_decision_rule_table.2.2.2.2.2.2 "greeting" (by decide)⟩

/-! ## State Updater lemmas shared by claims C2, C8 and C9 -/

/-- Number of study-plan steps of the bound topic (0 when no topic). -/
def totalStepsOf (s : SessionState) : Nat :=
  match s.topic with
  | some t => t.study_plan.total_steps
  | none => 0

/-- add_misconception leaves the question slot, the flag, the cursor and the
topic untouched. -/
theorem add_misconception_frame (s : SessionState) (c d : String) :
    ((s.add_misconception c d).awaiting_response = s.awaiting_response)
    ∧ ((s.add_misconception c d).last_question = s.last_question)
    ∧ ((s.add_misconception c d).current_step = s.current_step)
    ∧ ((s.add_misconception c d).topic = s.topic) := by
  by_cases hw : c ∈ s.weak_areas <;>
    simp [SessionState.add_misconception, hw]

/-- The misconception-appending fold leaves the same four fields untouched. -/
theorem foldl_add_misconception_frame (c : String) (l : List String) (s : SessionState) :
    ((l.foldl (fun acc m => acc.add_misconception c m) s).awaiting_response = s.awaiting_response)
    ∧ ((l.foldl (fun acc m => acc.add_misconception c m) s).last_question = s.last_question)
    ∧ ((l.foldl (fun acc m => acc.add_misconception c m) s).current_step = s.current_step)
    ∧ ((l.foldl (fun acc m => acc.add_misconception c m) s).topic = s.topic) := by
  induction l generalizing s with
  | nil => exact ⟨rfl, rfl, rfl, rfl⟩
  | cons m rest ih =>
      simp only [List.foldl_cons]
      obtain ⟨h1, h2, h3, h4⟩ := ih (s.add_misconception c m)
      obtain ⟨g1, g2, g3, g4⟩ := add_misconception_frame s c m
      exact ⟨h1.trans g1, h2.trans g2, h3.trans g3, h4.trans g4⟩

/-- advance_step leaves the flag, the question slot and the topic untouched,
and moves the cursor exactly when a topic is bound and the cursor is below the
step count. -/
theorem advance_step_spec (s : SessionState) :
    ((s.advance_step).1.awaiting_response = s.awaiting_response)
    ∧ ((s.advance_step).1.last_question = s.last_question)
    ∧ ((s.advance_step).1.topic = s.topic)
    ∧ ((s.advance_step).1.current_step =
        if s.topic.isSome ∧ s.current_step < totalStepsOf s
        then s.current_step + 1 else s.current_step) := by
  rcases htop : s.topic with _ | t
  · simp [SessionState.advance_step, totalStepsOf, htop]
  · by_cases hlt : s.current_step < t.study_plan.total_steps <;>
      simp [SessionState.advance_step, totalStepsOf, htop, hlt]

/-- Behaviour of the evaluator block on the claim-relevant fields. -/
theorem applyEvaluatorUpdate_spec (s : SessionState) (ev : EvaluatorOutput) :
    ((applyEvaluatorUpdate s ev).awaiting_response = false)
    ∧ ((applyEvaluatorUpdate s ev).last_question = s.last_question)
    ∧ ((applyEvaluatorUpdate s ev).topic = s.topic)
    ∧ ((applyEvaluatorUpdate s ev).current_step =
        if ev.is_correct ∧ s.topic.isSome ∧ s.current_step < totalStepsOf s
        then s.current_step + 1 else s.current_step) := by
  unfold applyEvaluatorUpdate
  cases hcorr : ev.is_correct with
  | false =>
      simp only [Bool.false_eq_true, if_false, false_and]
      generalize (match s.current_step_data with
        | some step => step.concept
        | none => "unknown") = concept
      generalize updateMasteryEstimate (dictGetD s.mastery_estimates concept (1/2))
        false ev.score = mv
      obtain ⟨f1, f2, f3, f4⟩ :=
        foldl_add_misconception_frame concept ev.misconceptions (s.update_mastery concept mv)
      exact ⟨rfl, f2, f4, f3⟩
  | true =>
      simp only [eq_self_iff_true, if_true, true_and]
      generalize (match s.current_step_data with
        | some step => step.concept
        | none => "unknown") = concept
      generalize updateMasteryEstimate (dictGetD s.mastery_estimates concept (1/2))
        true ev.score = mv
      obtain ⟨f1, f2, f3, f4⟩ :=
        foldl_add_misconception_frame concept ev.misconceptions (s.update_mastery concept mv)
      set s2 := ev.misconceptions.foldl (fun acc m => acc.add_misconception concept m)
        (s.update_mastery concept mv) with hs2
      obtain ⟨a1, a2, a3, a4⟩ := advance_step_spec s2.clear_question
      have hq : s2.clear_question.last_question = s.last_question := f2
      have htop : s2.clear_question.topic = s.topic := f4
      have hstep : s2.clear_question.current_step = s.current_step := f3
      have htot : totalStepsOf s2.clear_question = totalStepsOf s := by
        unfold totalStepsOf
        rw [htop]
      refine ⟨a1.trans rfl, a2.trans hq, a3.trans htop, ?_⟩
      rw [a4]
      simp only [htop, hstep, htot]

/-- Behaviour of the assessor block on the claim-relevant fields. -/
theorem applyAssessorUpdate_spec (s : SessionState) (a : AssessorOutput) :
    ((applyAssessorUpdate s a).awaiting_response = true)
    ∧ ((applyAssessorUpdate s a).last_question).isSome := by
  exact ⟨rfl, rfl⟩

/-- A lookup hit in an all-None outputs map yields None. -/
theorem lookup_all_none {outputs : SpecialistOutputs} {k : String}
    {v : Option SpecialistOutput}
    (h : ∀ p ∈ outputs, p.2 = none) (hl : outputs.lookup k = some v) : v = none := by
  induction outputs with
  | nil => simp at hl
  | cons p rest ih =>
      rw [List.lookup_cons] at hl
      cases hbk : (k == p.1) with
      | true =>
          simp only [hbk, Option.some.injEq] at hl
          exact hl ▸ h p (List.mem_cons_self p rest)
      | false =>
          simp only [hbk] at hl
          exact ih (fun q hq => h q (List.mem_cons_of_mem p hq)) hl

/-- With every result absent, the evaluator getter yields nothing. -/
theorem getEvaluatorOutput_all_none {outputs : SpecialistOutputs}
    (h : ∀ p ∈ outputs, p.2 = none) : getEvaluatorOutput outputs = none := by
  unfold getEvaluatorOutput
  cases hl : outputs.lookup "evaluator" with
  | none => rfl
  | some v =>
      have := lookup_all_none h hl
      subst this
      rfl

/-- With every result absent, the assessor getter yields nothing. -/
theorem getAssessorOutput_all_none {outputs : SpecialistOutputs}
    (h : ∀ p ∈ outputs, p.2 = none) : getAssessorOutput outputs = none := by
  unfold getAssessorOutput
  cases hl : outputs.lookup "assessor" with
  | none => rfl
  | some v =>
      have := lookup_all_none h hl
      subst this
      rfl

/-! ## Claim C2 — question/awaiting-flag invariant -/

/-- Outputs map of a successful assessor call. -/
def outputsAssessorOnly : SpecialistOutputs :=
  [("assessor", some (.assessor testAssessorOutput))]

/-- Outputs map of a successful evaluator call judging the answer incorrect. -/
def outputsEvaluatorIncorrect : SpecialistOutputs :=
  [("evaluator", some (.evaluator evalIncorrect))]

/-- Counterexample to claim C2 as stated: starting from a fresh session,
installing a question via an Assessor transition and then clearing it via an
Evaluator transition leaves `awaiting_response = false` while `last_question`
is still set — clear_question resets only the flag, so the biconditional
invariant `awaiting_response == (last_question is not None)` is broken by a
reachable State Updater transition. -/
theorem clear_question_breaks_flag_question_equivalence :
    ((updateState (updateState testSession "continuation" outputsAssessorOnly).1
        "answer" outputsEvaluatorIncorrect).1.awaiting_response = false)
    ∧ ((updateState (updateState testSession "continuation" outputsAssessorOnly).1
        "answer" outputsEvaluatorIncorrect).1.last_question.isSome = true) := by
  decide

/-- Claim C2 (amended): the one-directional invariant
`awaiting_response → (last_question is not None)` is preserved by every State
Updater transition: installing a question sets both the question and the flag,
while clearing resets only the flag and retains the stored question. -/
theorem updateState_preserves_question_flag_invariant
    (s : SessionState) (intent : String) (outputs : SpecialistOutputs)
    (hinv : s.awaiting_response = true → s.last_question.isSome) :
    (updateState s intent outputs).1.awaiting_response = true →
      (updateState s intent outputs).1.last_question.isSome := by
  cases hev : getEvaluatorOutput outputs with
  | none =>
      cases has : getAssessorOutput outputs with
      | none =>
          simp only [updateState, hev, has]
          split
          · exact fun h => hinv h
          · exact fun h => hinv h
      | some a =>
          simp only [updateState, hev, has]
          split
          · exact fun _ => (applyAssessorUpdate_spec s a).2
          · exact fun _ => (applyAssessorUpdate_spec s a).2
  | some ev =>
      cases has : getAssessorOutput outputs with
      | none =>
          simp only [updateState, hev, has]
          have hfalse := (applyEvaluatorUpdate_spec s ev).1
          split
          · intro h
            rw [show ((({ applyEvaluatorUpdate s ev with
                off_topic_count := (applyEvaluatorUpdate s ev).off_topic_count + 1 } :
                SessionState), true).1.awaiting_response) =
                (applyEvaluatorUpdate s ev).awaiting_response from rfl, hfalse] at h
            cases h
          · intro h
            rw [show (((applyEvaluatorUpdate s ev), true).1.awaiting_response) =
                (applyEvaluatorUpdate s ev).awaiting_response from rfl, hfalse] at h
            cases h
      | some a =>
          simp only [updateState, hev, has]
          split
          · exact fun _ => (applyAssessorUpdate_spec (applyEvaluatorUpdate s ev) a).2
          · exact fun _ => (applyAssessorUpdate_spec (applyEvaluatorUpdate s ev) a).2

/-- Witness for the amended C2 theorem at a concrete session and transition. -/
theorem updateState_preserves_question_flag_invariant_witness :
    (testSession.awaiting_response = true → testSession.last_question.isSome)
    ∧ ((updateState testSession "answer" outputsEvaluatorIncorrect).1.awaiting_response = true →
        (updateState testSession "answer" outputsEvaluatorIncorrect).1.last_question.isSome) :=
  ⟨by decide,
   updateState_preserves_question_flag_invariant testSession "answer"
     outputsEvaluatorIncorrect (by decide)⟩

/-! ## Claim C8 — evaluator transition: question lifecycle and step cursor -/

/-- Question fixture installed in a session awaiting an answer. -/
def questionFixture : Question :=
  ⟨"What is 1/2 + 1/4?", "3/4", "fractions", "exact match", [], 0⟩

/-- Session awaiting an answer to questionFixture. -/
def sessionWithQuestion : SessionState :=
  testSession.set_question questionFixture

/-- Counterexample to claim C8 as stated: after a State Updater transition
with a valid (incorrect-answer) Evaluator output, the stored question is NOT
cleared — `last_question` still holds the question; only the
awaiting-response flag is reset. -/
theorem evaluator_update_retains_last_question :
    ((updateState sessionWithQuestion "answer" outputsEvaluatorIncorrect).1.last_question
        = some questionFixture)
    ∧ ((updateState sessionWithQuestion "answer"
          outputsEvaluatorIncorrect).1.awaiting_response = false) := by
  decide

/-- Claim C8 (amended): with a valid Evaluator output present (and no Assessor
output installing a new question in the same turn) the State Updater resets
the awaiting-response flag regardless of correctness while retaining the
stored question object, and advances the step cursor by exactly one iff the
answer was correct, a topic is bound, and the cursor is strictly below the
number of steps (a no-op at the last step); the cursor never exceeds the total
step count. -/
theorem updateState_evaluator_clears_flag_and_advances_iff_correct
    (s : SessionState) (intent : String) (outputs : SpecialistOutputs) (ev : EvaluatorOutput)
    (hev : getEvaluatorOutput outputs = some ev)
    (has : getAssessorOutput outputs = none) :
    ((updateState s intent outputs).1.awaiting_response = false)
    ∧ ((updateState s intent outputs).1.last_question = s.last_question)
    ∧ ((updateState s intent outputs).1.current_step =
        if ev.is_correct ∧ s.topic.isSome ∧ s.current_step < totalStepsOf s
        then s.current_step + 1 else s.current_step)
    ∧ (s.current_step ≤ totalStepsOf s →
        (updateState s intent outputs).1.current_step ≤ totalStepsOf s) := by
  obtain ⟨p1, p2, p3, p4⟩ := applyEvaluatorUpdate_spec s ev
  simp only [updateState, hev, has]
  split
  · refine ⟨p1, p2, p4, ?_⟩
    intro hle
    have hstep : (({ applyEvaluatorUpdate s ev with
        off_topic_count := (applyEvaluatorUpdate s ev).off_topic_count + 1 } :
        SessionState), true).1.current_step =
        (applyEvaluatorUpdate s ev).current_step := rfl
    rw [hstep, p4]
    split_ifs with h
    · exact Nat.succ_le_of_lt h.2.2
    · exact hle
  · refine ⟨p1, p2, p4, ?_⟩
    intro hle
    rw [show (((applyEvaluatorUpdate s ev), true).1.current_step) =
        (applyEvaluatorUpdate s ev).current_step from rfl, p4]
    split_ifs with h
    · exact Nat.succ_le_of_lt h.2.2
    · exact hle

/-- Outputs map of a successful evaluator call judging the answer correct. -/
def outputsEvaluatorCorrect : SpecialistOutputs :=
  [("evaluator", some (.evaluator evalCorrect))]

/-- Witness for the amended C8 theorem: a correct answer in a session awaiting
a question clears the flag, keeps the question, and advances step 1 → 2. -/
theorem updateState_evaluator_behavior_witness :
    (getEvaluatorOutput outputsEvaluatorCorrect = some evalCorrect
      ∧ getAssessorOutput outputsEvaluatorCorrect = none)
    ∧ (((updateState sessionWithQuestion "answer" outputsEvaluatorCorrect).1.awaiting_response
          = false)
      ∧ ((updateState sessionWithQuestion "answer" outputsEvaluatorCorrect).1.last_question
          = sessionWithQuestion.last_question)
      ∧ ((updateState sessionWithQuestion "answer" outputsEvaluatorCorrect).1.current_step =
          if evalCorrect.is_correct ∧ sessionWithQuestion.topic.isSome
              ∧ sessionWithQuestion.current_step < totalStepsOf sessionWithQuestion
          then sessionWithQuestion.current_step + 1 else sessionWithQuestion.current_step)
      ∧ (sessionWithQuestion.current_step ≤ totalStepsOf sessionWithQuestion →
          (updateState sessionWithQuestion "answer" outputsEvaluatorCorrect).1.current_step
            ≤ totalStepsOf sessionWithQuestion)) :=
  ⟨⟨by decide, by decide⟩,
   updateState_evaluator_clears_flag_and_advances_iff_correct sessionWithQuestion "answer"
     outputsEvaluatorCorrect evalCorrect (by decide) (by decide)⟩

/-! ## Claim C9 — all-specialists-failed frame property -/

/-- All dispatched specialists failed, topic_steering among them. -/
def outputsAllFailedWithTS : SpecialistOutputs :=
  [("explainer", none), ("topic_steering", none)]

/-- All dispatched specialists failed, topic_steering not dispatched. -/
def outputsAllFailedNoTS : SpecialistOutputs :=
  [("explainer", none), ("evaluator", none)]

/-- Counterexample to claim C9 as stated: when every dispatched specialist
failed but topic_steering was among them, the State Updater still increments
off_topic_count and reports state_changed = true — the topic_steering block
checks only key presence, not whether the result is absent. -/
theorem failed_topic_steering_still_mutates :
    (∀ p ∈ outputsAllFailedWithTS, p.2 = none)
    ∧ ((updateState testSession "off_topic" outputsAllFailedWithTS).2 = true)
    ∧ ((updateState testSession "off_topic" outputsAllFailedWithTS).1.off_topic_count
        = testSession.off_topic_count + 1) := by
  decide

/-- Claim C9 (amended): when every dispatched specialist's result is absent,
the State Updater leaves the session completely unchanged and reports
state_changed = false — unless topic_steering was among the dispatched
specialists, in which case off_topic_count is incremented and
state_changed = true even though its result is absent. -/
theorem updateState_all_failed_is_topic_steering_gated
    (s : SessionState) (intent : String) (outputs : SpecialistOutputs)
    (h : ∀ p ∈ outputs, p.2 = none) :
    updateState s intent outputs =
      (if (outputs.lookup "topic_steering").isSome
       then ({ s with off_topic_count := s.off_topic_count + 1 }, true)
       else (s, false)) := by
  simp only [updateState, getEvaluatorOutput_all_none h, getAssessorOutput_all_none h]

/-- Witness for the amended C9 theorem: all-failed outputs without
topic_steering leave the session unchanged with state_changed = false. -/
theorem updateState_all_failed_witness :
    (∀ p ∈ outputsAllFailedNoTS, p.2 = none)
    ∧ updateState testSession "question" outputsAllFailedNoTS = (testSession, false) := by
  refine ⟨by decide, ?_⟩
  rw [updateState_all_failed_is_topic_steering_gated testSession "question"
    outputsAllFailedNoTS (by decide)]
  decide

/-! ## Claim C3 — turn-level failure handling -/

/-- Environment whose safety call raises. -/
def envSafetyError : TurnEnv :=
  { safetyResult := .error "safety check failed",
    decisionPayload := .error "unused", intentClassifier := .error "unused",
    specialistCall := fun _ => .error "unused",
    composerText := .error "unused", summaryText := .error "unused" }

/-- Store/heap holding the single test session object at address 0. -/
def heapFixture : SessionHeap :=
  { store := [("sess_1", 0)], cells := [(0, testSession)] }

/-- Counterexample to claim C3 as stated: after a failed turn the session is
not saved, yet the turn-counter increment and the appended student message ARE
observable through the in-memory store — the store holds the very object the
turn mutated in place, so the partial mutations of the failed turn persist. -/
theorem failed_turn_mutations_visible_through_store :
    (((runTurnThroughStore envSafetyError heapFixture "sess_1" "hello").1.observe
        "sess_1").map (fun s => s.turn_count) = some 1)
    ∧ (testSession.turn_count = 0)
    ∧ (((runTurnThroughStore envSafetyError heapFixture "sess_1" "hello").1.observe
        "sess_1").map (fun s => s.conversation_history) = some [⟨"student", "hello"⟩])
    ∧ (testSession.conversation_history = [])
    ∧ ((runTurnThroughStore envSafetyError heapFixture "sess_1" "hello").2.map
        (fun o => o.saved) = some false) := by
  decide

/-- Claim C3 (amended): an uncaught exception reaching the top of process_turn
yields the fixed generic apology with intent "error", no specialists and
state_changed false, and the session is not saved; however the in-place
mutations already applied before the failure (the turn-counter increment and
the student-message append) remain on the session object — which the
in-memory store aliases — so they persist despite the skipped save. -/
theorem processTurn_failure_apology_no_save (env : TurnEnv) (s : SessionState)
    (msg e : String) (h : env.safetyResult = .error e) :
    processTurn env s msg =
      { result := errorTurnResult,
        finalSession := (s.increment_turn).add_message ⟨"student", msg⟩,
        saved := false, stages := [.safety] } := by
  simp only [processTurn, h]

/-- Witness for the amended C3 theorem at the concrete failing environment. -/
theorem processTurn_failure_apology_no_save_witness :
    (envSafetyError.safetyResult = .error "safety check failed")
    ∧ processTurn envSafetyError testSession "hello" =
        { result := errorTurnResult,
          finalSession := (testSession.increment_turn).add_message ⟨"student", "hello"⟩,
          saved := false, stages := [.safety] } :=
  ⟨rfl, processTurn_failure_apology_no_save envSafetyError testSession "hello"
    "safety check failed" rfl⟩

/-! ## Claim C4 — unsafe-message short circuit -/

/-- Unsafe safety verdict whose violation_type and guidance are present but
empty strings (both falsy in Python). -/
def unsafeEmptyFieldsOutput : SafetyOutput :=
  { is_safe := false, violation_type := some "", guidance := some "",
    should_warn := true }

/-- Environment whose safety call returns unsafeEmptyFieldsOutput. -/
def envUnsafeEmptyFields : TurnEnv :=
  { safetyResult := .ok unsafeEmptyFieldsOutput,
    decisionPayload := .error "unused", intentClassifier := .error "unused",
    specialistCall := fun _ => .error "unused",
    composerText := .error "unused", summaryText := .error "unused" }

/-- Counterexample to claim C4 as stated: with violation_type present but
equal to "" the code appends "unknown" (not the violation type), and with
guidance present but equal to "" it returns the generic redirect (not the
guidance text) — `or`/truthiness, not an absence test. -/
theorem unsafe_truthiness_counterexample :
    (unsafeEmptyFieldsOutput.violation_type = some ""
      ∧ unsafeEmptyFieldsOutput.guidance = some "")
    ∧ ((processTurn envUnsafeEmptyFields testSession "hey").finalSession.safety_flags
        = ["unknown"])
    ∧ ((processTurn envUnsafeEmptyFields testSession "hey").result.response
        = genericRedirect) := by
  decide

/-- Claim C4 (amended): on an unsafe verdict process_turn appends the
violation type (or "unknown" when it is absent or empty), increments the
warning count exactly when should_warn, saves the session, and returns a
terminal result with the guidance text (or the generic redirect when guidance
is absent or empty), intent "unsafe" and specialists_called ["safety"], while
the Decision Engine, the Dispatcher and the State Updater never run. -/
theorem processTurn_unsafe_short_circuits
    (env : TurnEnv) (s : SessionState) (msg : String) (safety : SafetyOutput)
    (hok : env.safetyResult = .ok safety) (hverdict : safety.is_safe = false) :
    ((processTurn env s msg).result.intent = "unsafe")
    ∧ ((processTurn env s msg).result.specialists_called = ["safety"])
    ∧ ((processTurn env s msg).saved = true)
    ∧ ((processTurn env s msg).result.response =
        match safety.guidance with
        | some g => if g == "" then genericRedirect else g
        | none => genericRedirect)
    ∧ ((processTurn env s msg).finalSession.safety_flags =
        s.safety_flags ++ [match safety.violation_type with
          | some v => if v == "" then "unknown" else v
          | none => "unknown"])
    ∧ ((processTurn env s msg).finalSession.warning_count =
        s.warning_count + (if safety.should_warn then 1 else 0))
    ∧ (Stage.decision ∉ (processTurn env s msg).stages)
    ∧ (Stage.dispatch ∉ (processTurn env s msg).stages)
    ∧ (Stage.stateUpdate ∉ (processTurn env s msg).stages) := by
  have hturn : processTurn env s msg =
      { result := ⟨(handleUnsafeMessage ((s.increment_turn).add_message ⟨"student", msg⟩)
            safety).2, "unsafe", ["safety"], true⟩,
        finalSession :=
          (handleUnsafeMessage ((s.increment_turn).add_message ⟨"student", msg⟩) safety).1,
        saved := true, stages := [.safety, .persist] } := by
    simp only [processTurn, hok, hverdict, Bool.false_eq_true, if_false]
  rw [hturn]
  refine ⟨rfl, rfl, rfl, rfl, ?_, ?_, by simp, by simp, by simp⟩
  · cases hwv : safety.should_warn <;>
      simp only [handleUnsafeMessage, hwv, Bool.false_eq_true, if_false, if_true] <;>
      rfl
  · cases hwv : safety.should_warn <;>
      simp only [handleUnsafeMessage, hwv, Bool.false_eq_true, eq_self_iff_true,
        if_false, if_true, Nat.add_zero] <;>
      rfl

/-- Unsafe harassment verdict of the spec scenario. -/
def unsafeHarassmentOutput : SafetyOutput :=
  { is_safe := false, violation_type := some "harassment", guidance := none,
    should_warn := true }

/-- Environment whose safety call returns unsafeHarassmentOutput. -/
def envUnsafeHarassment : TurnEnv :=
  { safetyResult := .ok unsafeHarassmentOutput,
    decisionPayload := .error "unused", intentClassifier := .error "unused",
    specialistCall := fun _ => .error "unused",
    composerText := .error "unused", summaryText := .error "unused" }

/-- Witness for the amended C4 theorem: the harassment scenario flags the
session, warns once, and short-circuits. -/
theorem processTurn_unsafe_short_circuits_witness :
    (envUnsafeHarassment.safetyResult = .ok unsafeHarassmentOutput
      ∧ unsafeHarassmentOutput.is_safe = false)
    ∧ ((processTurn envUnsafeHarassment testSession "some harassing message").result.intent
        = "unsafe")
    ∧ ((processTurn envUnsafeHarassment testSession
        "some harassing message").result.specialists_called = ["safety"])
    ∧ ((processTurn envUnsafeHarassment testSession "some harassing message").saved = true)
    ∧ ((processTurn envUnsafeHarassment testSession
        "some harassing message").finalSession.safety_flags
        = testSession.safety_flags ++ ["harassment"])
    ∧ ((processTurn envUnsafeHarassment testSession
        "some harassing message").finalSession.warning_count
        = testSession.warning_count + 1) := by
  have h := processTurn_unsafe_short_circuits envUnsafeHarassment testSession
    "some harassing message" unsafeHarassmentOutput rfl rfl
  exact ⟨⟨rfl, rfl⟩, h.1, h.2.1, h.2.2.1, h.2.2.2.2.1, h.2.2.2.2.2.1⟩

/-! ## Claim C10 — non-empty response guarantee -/

/-- The specialist-outputs formatter yields nothing when every result is
absent. -/
theorem formatSpecialistOutputs_all_none {outputs : SpecialistOutputs}
    (h : ∀ p ∈ outputs, p.2 = none) : formatSpecialistOutputs outputs = "" := by
  unfold formatSpecialistOutputs
  have hfold : ∀ (l : SpecialistOutputs), (∀ p ∈ l, p.2 = none) → ∀ acc : List String,
      l.foldl (fun acc no =>
        match no.2 with
        | none => acc
        | some o => acc ++ formatOneOutput no.1 o) acc = acc := by
    intro l
    induction l with
    | nil => intro _ acc; rfl
    | cons p rest ih =>
        intro hall acc
        rw [List.foldl_cons]
        have hp : p.2 = none := hall p (List.mem_cons_self p rest)
        rw [hp]
        exact ih (fun q hq => hall q (List.mem_cons_of_mem p hq)) acc
  rw [hfold outputs h []]
  rfl

/-- Every branch of the deterministic fallback reply is non-empty. -/
theorem generateFallbackResponse_length_pos (s : SessionState) (intent : String) :
    0 < (generateFallbackResponse s intent).length := by
  have happend : ∀ (a b : String), 0 < a.length → 0 < (a ++ b).length := by
    intro a b ha
    rw [String.length_append]
    omega
  unfold generateFallbackResponse
  rcases hsd : s.current_step_data with _ | step <;>
    dsimp only <;> split_ifs <;>
      first
        | decide
        | exact happend _ _ (happend _ _ (by decide))

/-- Claim C10 (amended): when every specialist result is absent the composer
returns the deterministic rule-based fallback keyed on intent and current
step, and that fallback is never empty; the non-emptiness guarantee is limited
to this path — with a non-null specialist output the composer returns the
trimmed completion text, which is empty when the completion returned only
whitespace. -/
theorem composeResponse_all_null_falls_back_nonempty
    (composerText : Except String String) (s : SessionState) (intent : String)
    (outputs : SpecialistOutputs) (h : ∀ p ∈ outputs, p.2 = none) :
    composeResponse composerText s intent outputs = .ok (generateFallbackResponse s intent)
    ∧ 0 < (generateFallbackResponse s intent).length := by
  refine ⟨?_, generateFallbackResponse_length_pos s intent⟩
  unfold composeResponse
  rw [formatSpecialistOutputs_all_none h]
  dsimp only
  have h0 : pyStrip "" = "" := by decide
  rw [h0]
  simp

/-- Witness for the amended C10 theorem at a concrete failed-explainer turn. -/
theorem composeResponse_all_null_witness :
    (∀ p ∈ [(("explainer" : String), (none : Option SpecialistOutput))], p.2 = none)
    ∧ (composeResponse (.error "unused") testSession "question" [("explainer", none)]
        = .ok (generateFallbackResponse testSession "question")
      ∧ 0 < (generateFallbackResponse testSession "question").length) :=
  ⟨by decide,
   composeResponse_all_null_falls_back_nonempty (.error "unused") testSession "question"
     [("explainer", none)] (by decide)⟩

/-- Decision payload selecting only the explainer, sequentially. -/
def decisionExplainerPayload : DecisionPayload :=
  { intent := "question", intent_confidence := 1, intent_reasoning := "asked a question",
    specialists_to_call := ["explainer"], execution_strategy := "sequential",
    mini_plan_reasoning := "explain the concept",
    overall_strategy := "explain the concept",
    expected_outcome := "understanding_gained" }

/-- Environment where the turn succeeds, the explainer produces output, and
the composition completion returns only whitespace. -/
def envWhitespaceComposer : TurnEnv :=
  { safetyResult := .ok { is_safe := true },
    decisionPayload := .ok decisionExplainerPayload,
    intentClassifier := .error "unused",
    specialistCall := fun n =>
      if n == "explainer" then .ok (.explainer testExplainerOutput)
      else .error "unavailable",
    composerText := .ok "   ",
    summaryText := .ok "explained fractions" }

/-- Counterexample to claim C10 as stated: with a non-null explainer output
and a whitespace-only composition completion, process_turn returns the empty
string to the student (and still saves the session) — the non-emptiness
guarantee does not hold on this path. -/
theorem whitespace_composition_returns_empty_response :
    ((processTurn envWhitespaceComposer testSession "what is a fraction?").result.response
        = "")
    ∧ ((processTurn envWhitespaceComposer testSession "what is a fraction?").saved
        = true) := by
  decide

end Tutor
